import Mathlib

/-
Verification development for the flight-delay-explorer repository.

The development shallowly embeds the two normalization paths
(`src/flight_delay_explorer/api/client.py` and
`src/flight_delay_explorer/parsers/data_parser.py`) and the retry loop of
`AviationStackClient.get_flights`.

Modelling conventions:
- Python strings are `String` (sequences of code points); character-level
  helpers (`pyStrip`, `pySplit`, `zfillChars`, `pyLower`) model the Python
  `str` methods `strip`, `split(sep)`, `zfill` and `lower` over the ASCII
  data that appears in flight records.
- A raw upstream flight entry is a `RawFlight`: the nested JSON lookups
  performed by the code (`flight_data.get("flight", {}).get("icao", "")`
  and so on) are flattened into `Option`-typed fields, where `none` means
  the key (or its enclosing object) is missing.
- Python exceptions are `Except` / explicit error values; `time.sleep`
  calls are recorded in a trace; the HTTP world supplied by `httpx` is a
  function from attempt index to the outcome of `client.get(...)`.
- Machine integers do not occur: Python ints are unbounded, so delays are
  `Int` and counters are `Nat`.
-/

/-- Python `str.lower` restricted to ASCII, which is all the code compares
(`"cancelled"` / `"diverted"`). -/
def pyLower (s : String) : String := String.mk (s.data.map Char.toLower)

/-- Python `str.strip()` on the character list of a string: drop leading and
trailing whitespace. -/
def pyStrip (cs : List Char) : List Char :=
  ((cs.dropWhile Char.isWhitespace).reverse.dropWhile Char.isWhitespace).reverse

/-- Python `str.split(sep)` for a one-character separator: splits keeping
empty parts, and the split of an empty string is `[[]]`. -/
def pySplit (sep : Char) : List Char → List (List Char)
  | [] => [[]]
  | c :: rest =>
    match pySplit sep rest with
    | h :: t => if c = sep then [] :: h :: t else (c :: h) :: t
    | [] => [[]]

/-- Python `str.zfill(width)`: left-pad with zeros up to `width`, keeping a
leading sign character in front of the padding. -/
def zfillChars (width : Nat) (cs : List Char) : List Char :=
  if width ≤ cs.length then cs
  else
    let fill := List.replicate (width - cs.length) '0'
    match cs with
    | c :: rest => if c = '+' ∨ c = '-' then c :: (fill ++ rest) else fill ++ cs
    | [] => fill

/-- The ten ASCII digit characters, used to state which strings count as
dates in the claims. -/
def digitChars : List Char := ['0', '1', '2', '3', '4', '5', '6', '7', '8', '9']

/-- A list of characters consisting only of ASCII digits. -/
abbrev IsDigits (cs : List Char) : Prop := ∀ c ∈ cs, c ∈ digitChars

/-- The value of a successful computation, `none` on failure (the view the
batch loops take of a per-record exception). -/
def okValue {ε α : Type} : Except ε α → Option α
  | .ok a => some a
  | .error _ => none

/-- `DelayCategory` from `models.py`: closed enumeration of flight
outcomes. -/
inductive DelayCategory where
  | CANCELLED
  | DIVERTED
  | ON_TIME
  | MAJOR_DELAY
  | MINOR_DELAY
  | SEVERE_DELAY
  deriving DecidableEq, Repr

/-- `FlightRecord` from `models.py`: the canonical normalized record. -/
structure FlightRecord where
  arrival_delay : Int
  destination_icao : String
  flight_date : String
  flight_icao : String
  flight_status : DelayCategory
  origin_icao : String
  deriving DecidableEq, Repr

/-- One raw upstream flight entry, with the nested dictionary lookups the
code performs flattened into fields. `flight_icao` stands for
`flight_data.get("flight", {}).get("icao", ...)` (`none` when either the
`flight` object or its `icao` key is missing), and likewise
`departure_icao`, `arrival_icao`. `arrival_delay` is two-level: `none`
when the `arrival` object or its `delay` key is missing, `some none` when
the key holds JSON `null`, `some (some n)` when it holds the integer
`n`. -/
structure RawFlight where
  flight_date : Option String
  flight_status : Option String
  flight_icao : Option String
  departure_icao : Option String
  arrival_icao : Option String
  arrival_delay : Option (Option Int)
  deriving DecidableEq, Repr

/-- A decoded response body (or file body): a JSON object whose `data` key,
when present, holds a list of raw flight entries. -/
structure RawResponse where
  data : Option (List RawFlight)
  deriving DecidableEq, Repr

namespace FlightDataParser

/-- `FlightDataParser._determine_delay_category` (`data_parser.py:196-220`):
special statuses first, then delay thresholds. -/
def determine_delay_category (flight_status : String) (delay_minutes : Int) :
    DelayCategory :=
  if flight_status = "cancelled" then DelayCategory.CANCELLED
  else if flight_status = "diverted" then DelayCategory.DIVERTED
  else if delay_minutes ≤ 15 then DelayCategory.ON_TIME
  else if delay_minutes ≤ 60 then DelayCategory.MINOR_DELAY
  else if delay_minutes ≤ 180 then DelayCategory.MAJOR_DELAY
  else DelayCategory.SEVERE_DELAY

/-- The first check of `FlightDataParser._normalize_date_format`
(`data_parser.py:172`): `len(date_str) == 10 and date_str[4] == '-' and
date_str[7] == '-'`. -/
def iso_shape_check (cs : List Char) : Bool :=
  cs.length = 10 && cs.get? 4 = some '-' && cs.get? 7 = some '-'

/-- The `'/' in date_str` block of `_normalize_date_format`
(`data_parser.py:176-182`): `some` when one of its `return` statements
fires, `none` when control falls through. -/
def slash_branch (cs : List Char) : Option (List Char) :=
  if '/' ∈ cs then
    match pySplit '/' cs with
    | [p0, p1, p2] =>
      if p0.length = 4 then
        some (p0 ++ '-' :: zfillChars 2 p1 ++ '-' :: zfillChars 2 p2)
      else if p2.length = 4 then
        some (p2 ++ '-' :: zfillChars 2 p0 ++ '-' :: zfillChars 2 p1)
      else none
    | _ => none
  else none

/-- The `'-' in date_str` block of `_normalize_date_format`
(`data_parser.py:185-190`): month-first interpretation of
`MM-DD-YYYY`. -/
def dash_branch (cs : List Char) : Option (List Char) :=
  if '-' ∈ cs then
    match pySplit '-' cs with
    | [p0, p1, p2] =>
      if p2.length = 4 then
        some (p2 ++ '-' :: zfillChars 2 p0 ++ '-' :: zfillChars 2 p1)
      else none
    | _ => none
  else none

/-- `FlightDataParser._normalize_date_format` (`data_parser.py:159-194`) at
the character level: strip, pass through `YYYY-MM-DD` shapes, try the
slash block, try the dash block, otherwise return the (stripped) input. -/
def normalize_date_chars (cs0 : List Char) : List Char :=
  let cs := pyStrip cs0
  if iso_shape_check cs then cs
  else
    match slash_branch cs with
    | some r => r
    | none =>
      match dash_branch cs with
      | some r => r
      | none => cs

/-- `FlightDataParser._normalize_date_format` on strings. -/
def normalize_date_format (date_str : String) : String :=
  String.mk (normalize_date_chars date_str.data)

/-- `FlightDataParser._parse_flight_data` (`data_parser.py:99-157`): strict
per-record normalization. Python's `if not x` on the fetched field is
true exactly when the field is missing (`None`) or the empty string, which
is `(x.getD "").isEmpty` here. Failures are the `ValueError`s the source
raises. -/
def parse_flight_data (flight_data : RawFlight) : Except String FlightRecord :=
  let flight_date0 := flight_data.flight_date.getD ""
  if flight_date0.isEmpty then .error "Missing required field: flight_date"
  else
    let flight_date := normalize_date_format flight_date0
    let flight_icao := flight_data.flight_icao.getD ""
    if flight_icao.isEmpty then .error "Missing required field: flight.icao"
    else
      let origin_icao := flight_data.departure_icao.getD ""
      if origin_icao.isEmpty then .error "Missing required field: departure.icao"
      else
        let destination_icao := flight_data.arrival_icao.getD ""
        if destination_icao.isEmpty then .error "Missing required field: arrival.icao"
        else
          let arrival_delay0 :=
            (match flight_data.arrival_delay with
              | none => none
              | some v => v).getD 0
          let flight_status := pyLower (flight_data.flight_status.getD "")
          let status_category := determine_delay_category flight_status arrival_delay0
          let arrival_delay :=
            if status_category = DelayCategory.CANCELLED ∨
                status_category = DelayCategory.DIVERTED then 0
            else arrival_delay0
          .ok
            { arrival_delay := arrival_delay
              destination_icao := destination_icao
              flight_date := flight_date
              flight_icao := flight_icao
              flight_status := status_category
              origin_icao := origin_icao }

/-- `FlightDataParser._parse_json_data` (`data_parser.py:69-97`): extract
the `data` list (missing → `[]`), return `[]` when it is empty, otherwise
normalize each entry and skip the ones that raise. -/
def parse_json_data (data : RawResponse) : List FlightRecord :=
  let flights_data := data.data.getD []
  if flights_data.isEmpty then []
  else flights_data.filterMap (fun fd => okValue (parse_flight_data fd))

/-- The failures `FlightDataParser.parse_file` can surface. -/
inductive ParseFileError where
  | fileNotFound
  | jsonDecodeError
  deriving DecidableEq, Repr

/-- `FlightDataParser.parse_file` (`data_parser.py:25-67`). The filesystem
and `json.load` are environment parameters of the embedding: `fs path =
none` means the path does not exist, and `decode content = none` means
`json.load` raises `json.JSONDecodeError` on that content. -/
def parse_file (fs : String → Option String) (decode : String → Option RawResponse)
    (file_path : String) : Except ParseFileError (List FlightRecord) :=
  match fs file_path with
  | none => .error ParseFileError.fileNotFound
  | some content =>
    match decode content with
    | none => .error ParseFileError.jsonDecodeError
    | some data => .ok (parse_json_data data)

end FlightDataParser

namespace AviationStackClient

/-- `AviationStackClient._determine_delay_category` (`client.py:151-177`):
like the parser's version but with an `Optional[int]` delay, `None`
replaced by 0 after the status checks. -/
def determine_delay_category (flight_status : String) (delay_minutes : Option Int) :
    DelayCategory :=
  if flight_status = "cancelled" then DelayCategory.CANCELLED
  else if flight_status = "diverted" then DelayCategory.DIVERTED
  else
    let d := delay_minutes.getD 0
    if d ≤ 15 then DelayCategory.ON_TIME
    else if d ≤ 60 then DelayCategory.MINOR_DELAY
    else if d ≤ 180 then DelayCategory.MAJOR_DELAY
    else DelayCategory.SEVERE_DELAY

/-- `AviationStackClient._parse_flight_record` (`client.py:122-149`): the
lenient network-path normalization. `flight_data.get("arrival",
{}).get("delay", 0)` yields the integer 0 when the key is missing and
Python `None` when it is null, hence the `match`. Note the constructed
record keeps `arrival_delay` as extracted — there is no reset for
cancelled/diverted flights on this path. -/
def parse_flight_record (flight_data : RawFlight) : FlightRecord :=
  let flight_status := pyLower (flight_data.flight_status.getD "")
  let raw_delay : Option Int :=
    match flight_data.arrival_delay with
    | none => some 0
    | some v => v
  let status_category := determine_delay_category flight_status raw_delay
  let arrival_delay := raw_delay.getD 0
  { arrival_delay := arrival_delay
    destination_icao := flight_data.arrival_icao.getD ""
    flight_date := flight_data.flight_date.getD ""
    flight_icao := flight_data.flight_icao.getD ""
    flight_status := status_category
    origin_icao := flight_data.departure_icao.getD "" }

/-- `AviationStackClient._parse_response` (`client.py:99-120`): extract the
`data` list and normalize each entry. In the embedding
`parse_flight_record` is total, so the per-record `try/except` never
skips. -/
def parse_response (data : RawResponse) : List FlightRecord :=
  (data.data.getD []).map parse_flight_record

/-- The Classification Engine as both call sites invoke it
(`client.py:132-135`, `data_parser.py:143-144`): the raw status string is
lower-cased and then categorized. -/
def classify (status : String) (delay : Option Int) : DelayCategory :=
  determine_delay_category (pyLower status) delay

/-- Outcome of `client.get(url, params)` on one attempt of the retry loop:
a raised `httpx.ConnectError`, some other raised exception, or a response
with a status code and a body (`none` when `response.json()` would
raise). -/
inductive HttpAttempt where
  | connectError
  | otherError
  | response (status : Nat) (body : Option RawResponse)
  deriving DecidableEq, Repr

/-- The typed failures `get_flights` can surface: `httpStatusError` from
`raise_for_status`, `connectError` and `otherError` re-raised from the
attempt, `jsonError` from `response.json()` on a 2xx body, and
`runtimeError` from the trailing guard (`client.py:97`). -/
inductive FetchError where
  | httpStatusError (status : Nat)
  | connectError
  | jsonError
  | otherError
  | runtimeError
  deriving DecidableEq, Repr

/-- Observable side effects of one `get_flights` call: how many attempts
ran and the durations passed to `time.sleep`, in order. -/
structure FetchTrace where
  attempts : Nat
  sleeps : List Nat
  deriving DecidableEq, Repr

/-- One loop iteration's bookkeeping: the recursive result with this
attempt counted and a backoff sleep of `2^attempt` seconds recorded. -/
def afterSleep (attempt : Nat)
    (r : FetchTrace × Except FetchError (List FlightRecord)) :
    FetchTrace × Except FetchError (List FlightRecord) :=
  (⟨r.1.attempts + 1, 2 ^ attempt :: r.1.sleeps⟩, r.2)

/-- The retry loop of `AviationStackClient.get_flights`
(`client.py:53-97`). `fuel` counts the remaining iterations of
`for attempt in range(max_retries)` (the loop is entered with
`fuel = max_retries`, `attempt = 0`); when it reaches 0 the loop has
completed and the trailing `RuntimeError` guard fires. Within an
iteration: a 429 with attempts remaining sleeps and continues
(`client.py:60-67`); `raise_for_status` turns any non-2xx status into an
`HTTPStatusError` (`client.py:69`); an invalid JSON body on a 2xx raises
out of `response.json()` (`client.py:71`); each handler re-raises on the
final attempt and otherwise sleeps `2^attempt` seconds
(`client.py:78-94`). -/
def get_flights_aux (env : Nat → HttpAttempt) (max_retries : Nat) :
    Nat → Nat → FetchTrace × Except FetchError (List FlightRecord)
  | _, 0 => (⟨0, []⟩, .error FetchError.runtimeError)
  | attempt, fuel + 1 =>
    match env attempt with
    | .connectError =>
      if attempt = max_retries - 1 then (⟨1, []⟩, .error FetchError.connectError)
      else afterSleep attempt (get_flights_aux env max_retries (attempt + 1) fuel)
    | .otherError =>
      if attempt = max_retries - 1 then (⟨1, []⟩, .error FetchError.otherError)
      else afterSleep attempt (get_flights_aux env max_retries (attempt + 1) fuel)
    | .response status body =>
      if status = 429 ∧ attempt < max_retries - 1 then
        afterSleep attempt (get_flights_aux env max_retries (attempt + 1) fuel)
      else if ¬(200 ≤ status ∧ status ≤ 299) then
        if attempt = max_retries - 1 then
          (⟨1, []⟩, .error (FetchError.httpStatusError status))
        else afterSleep attempt (get_flights_aux env max_retries (attempt + 1) fuel)
      else
        match body with
        | none =>
          if attempt = max_retries - 1 then (⟨1, []⟩, .error FetchError.jsonError)
          else afterSleep attempt (get_flights_aux env max_retries (attempt + 1) fuel)
        | some data => (⟨1, []⟩, .ok (parse_response data))

/-- `AviationStackClient.get_flights` (`client.py:29-97`) as a function of
the HTTP environment and the configured `max_retries`, returning the
attempt/sleep trace together with the result. -/
def get_flights (env : Nat → HttpAttempt) (max_retries : Nat) :
    FetchTrace × Except FetchError (List FlightRecord) :=
  get_flights_aux env max_retries 0 max_retries

end AviationStackClient

/-- Concrete raw record for the cancelled-with-nonnull-delay scenario: a
cancelled flight whose upstream `arrival.delay` is 30. -/
def rcCancelledDelay : RawFlight :=
  { flight_date := some "2024-01-01"
    flight_status := some "cancelled"
    flight_icao := some "UAL456"
    departure_icao := some "KORD"
    arrival_icao := some "KDEN"
    arrival_delay := some (some 30) }

/-- Concrete raw record whose `flight_date` is present but empty, all other
required fields present and non-empty. -/
def rcEmptyDate : RawFlight :=
  { flight_date := some ""
    flight_status := some "landed"
    flight_icao := some "AAL123"
    departure_icao := some "KJFK"
    arrival_icao := some "KLAX"
    arrival_delay := some (some 5) }

/-- Concrete raw record whose `flight_date` is a single space: truthy in
Python, so it passes the strict validation, but date normalization strips
it to the empty string. -/
def rcSpaceDate : RawFlight :=
  { flight_date := some " "
    flight_status := some "landed"
    flight_icao := some "AAL123"
    departure_icao := some "KJFK"
    arrival_icao := some "KLAX"
    arrival_delay := some (some 20) }

/-- Concrete raw record with every field present and in range. -/
def rcLanded : RawFlight :=
  { flight_date := some "2024-01-01"
    flight_status := some "landed"
    flight_icao := some "AAL123"
    departure_icao := some "KJFK"
    arrival_icao := some "KLAX"
    arrival_delay := some (some 25) }

/-- HTTP environment whose first attempt returns a 2xx response with an
invalid JSON body and whose later attempts return a valid empty
response. -/
def envBadJsonThenGood : Nat → AviationStackClient.HttpAttempt :=
  fun i =>
    if i = 0 then AviationStackClient.HttpAttempt.response 200 none
    else AviationStackClient.HttpAttempt.response 200 (some { data := some [] })

/-- HTTP environment in which every attempt raises a connection error. -/
def envAllConnectFail : Nat → AviationStackClient.HttpAttempt :=
  fun _ => AviationStackClient.HttpAttempt.connectError

/-- HTTP environment in which every attempt is rate-limited (HTTP 429). -/
def envAll429 : Nat → AviationStackClient.HttpAttempt :=
  fun _ => AviationStackClient.HttpAttempt.response 429 none

/-- HTTP environment with two connection failures followed by a valid empty
2xx response on the third attempt. -/
def envTwoFailsThenOk : Nat → AviationStackClient.HttpAttempt :=
  fun i =>
    if i < 2 then AviationStackClient.HttpAttempt.connectError
    else AviationStackClient.HttpAttempt.response 200 (some { data := some [] })

/-- The normalized record the file path produces for `rcCancelledDelay`. -/
def recCancelledFile : FlightRecord :=
  { arrival_delay := 0
    destination_icao := "KDEN"
    flight_date := "2024-01-01"
    flight_icao := "UAL456"
    flight_status := DelayCategory.CANCELLED
    origin_icao := "KORD" }

/-- The normalized record the file path produces for `rcLanded`. -/
def recLanded : FlightRecord :=
  { arrival_delay := 25
    destination_icao := "KLAX"
    flight_date := "2024-01-01"
    flight_icao := "AAL123"
    flight_status := DelayCategory.MINOR_DELAY
    origin_icao := "KJFK" }

/-- Python truthiness failure of a fetched string field: the field is
missing or the empty string. This is exactly the condition under which
`if not x` fires in `_parse_flight_data`. -/
def blankField (o : Option String) : Bool := (o.getD "").isEmpty

/-! Helper lemmas about the Python string helpers. -/

theorem dropWhile_eq_self_of {p : Char → Bool} :
    ∀ cs : List Char, (∀ c ∈ cs, p c = false) → cs.dropWhile p = cs := by
  intro cs h
  cases cs with
  | nil => rfl
  | cons a l => simp [List.dropWhile, h a (by simp)]

theorem pyStrip_eq_self {cs : List Char} (h : ∀ c ∈ cs, c.isWhitespace = false) :
    pyStrip cs = cs := by
  unfold pyStrip
  rw [dropWhile_eq_self_of cs h,
    dropWhile_eq_self_of cs.reverse (fun c hc => h c (List.mem_reverse.mp hc)),
    List.reverse_reverse]

theorem string_ne_empty_of_isEmpty_false {s : String} (h : s.isEmpty = false) :
    s ≠ "" := by
  intro he
  rw [he] at h
  exact absurd h (by decide)

/-! Helper lemmas characterizing the strict per-record normalizer. -/

theorem parse_flight_data_ok_fields {r : RawFlight} {rec : FlightRecord}
    (h : FlightDataParser.parse_flight_data r = .ok rec) :
    rec.flight_icao = r.flight_icao.getD "" ∧
    rec.origin_icao = r.departure_icao.getD "" ∧
    rec.destination_icao = r.arrival_icao.getD "" ∧
    (r.flight_icao.getD "").isEmpty = false ∧
    (r.departure_icao.getD "").isEmpty = false ∧
    (r.arrival_icao.getD "").isEmpty = false ∧
    ((rec.flight_status = DelayCategory.CANCELLED ∨
      rec.flight_status = DelayCategory.DIVERTED) → rec.arrival_delay = 0) := by
  simp only [FlightDataParser.parse_flight_data] at h
  split at h
  · exact absurd h (by simp)
  · split at h
    · exact absurd h (by simp)
    · split at h
      · exact absurd h (by simp)
      · split at h
        · exact absurd h (by simp)
        · rename_i h1 h2 h3 h4
          rw [Except.ok.injEq] at h
          subst h
          refine ⟨rfl, rfl, rfl, ?_, ?_, ?_, ?_⟩
          · revert h2; cases (r.flight_icao.getD "").isEmpty <;> simp
          · revert h3; cases (r.departure_icao.getD "").isEmpty <;> simp
          · revert h4; cases (r.arrival_icao.getD "").isEmpty <;> simp
          · intro hstat
            dsimp only at hstat ⊢
            rw [if_pos hstat]

/-! Claims about normalization and classification. -/

/-- Claim C1 counterexample: on the network path, a raw record with
`flight_status = "cancelled"` and `arrival.delay = 30` is normalized to a
record whose status is CANCELLED but whose `arrival_delay` is 30, not 0:
the claimed invariant fails on the network path. -/
theorem network_cancelled_keeps_delay :
    (AviationStackClient.parse_flight_record rcCancelledDelay).flight_status =
      DelayCategory.CANCELLED ∧
    (AviationStackClient.parse_flight_record rcCancelledDelay).arrival_delay ≠ 0 :=
  ⟨rfl, by decide⟩

/-- Claim C1, amended: the invariant `arrival_delay = 0` for CANCELLED and
DIVERTED records holds on the file path, whose normalizer resets the delay
(`data_parser.py:147-148`); on the network path the normalizer keeps the
extracted delay, so a cancelled or diverted flight with a non-null raw
delay keeps that delay in the output. -/
theorem cancelled_diverted_zero_delay_amended :
    (∀ r rec, FlightDataParser.parse_flight_data r = .ok rec →
      rec.flight_status = DelayCategory.CANCELLED ∨
        rec.flight_status = DelayCategory.DIVERTED →
      rec.arrival_delay = 0) ∧
    (∀ r d, r.arrival_delay = some (some d) →
      ((pyLower (r.flight_status.getD "") = "cancelled" →
        (AviationStackClient.parse_flight_record r).flight_status =
          DelayCategory.CANCELLED ∧
        (AviationStackClient.parse_flight_record r).arrival_delay = d) ∧
       (pyLower (r.flight_status.getD "") = "diverted" →
        (AviationStackClient.parse_flight_record r).flight_status =
          DelayCategory.DIVERTED ∧
        (AviationStackClient.parse_flight_record r).arrival_delay = d))) := by
  constructor
  · intro r rec h hstat
    exact (parse_flight_data_ok_fields h).2.2.2.2.2.2 hstat
  · intro r d h
    constructor
    · intro hs
      simp [AviationStackClient.parse_flight_record,
        AviationStackClient.determine_delay_category, h, hs]
    · intro hs
      simp [AviationStackClient.parse_flight_record,
        AviationStackClient.determine_delay_category, h, hs]

/-- Claim C1 witness: the file path applied to the cancelled-with-delay-30
record produces `recCancelledFile`, whose `arrival_delay` the amended
theorem forces to 0. -/
theorem cancelled_diverted_zero_delay_amended_witness :
    FlightDataParser.parse_flight_data rcCancelledDelay = .ok recCancelledFile ∧
    recCancelledFile.arrival_delay = 0 :=
  ⟨rfl, cancelled_diverted_zero_delay_amended.1 rcCancelledDelay recCancelledFile rfl
    (Or.inl rfl)⟩

/-- Claim C2: the classification pipeline (lower-case then categorize, as
both call sites invoke it) returns CANCELLED/DIVERTED whenever the status
matches case-insensitively, otherwise buckets the delay (null treated as
0) by the thresholds 15, 60, 180; and the client's and the parser's copies
of `_determine_delay_category` compute the same function, with the
client's optional delay defaulting to 0. -/
theorem classify_engine_spec :
    (∀ s d, pyLower s = "cancelled" →
      AviationStackClient.classify s d = DelayCategory.CANCELLED) ∧
    (∀ s d, pyLower s = "diverted" →
      AviationStackClient.classify s d = DelayCategory.DIVERTED) ∧
    (∀ s d, pyLower s ≠ "cancelled" → pyLower s ≠ "diverted" →
      ((d.getD 0 ≤ 15 → AviationStackClient.classify s d = DelayCategory.ON_TIME) ∧
       (15 < d.getD 0 → d.getD 0 ≤ 60 →
         AviationStackClient.classify s d = DelayCategory.MINOR_DELAY) ∧
       (60 < d.getD 0 → d.getD 0 ≤ 180 →
         AviationStackClient.classify s d = DelayCategory.MAJOR_DELAY) ∧
       (180 < d.getD 0 →
         AviationStackClient.classify s d = DelayCategory.SEVERE_DELAY))) ∧
    (∀ s d, AviationStackClient.determine_delay_category s (some d) =
      FlightDataParser.determine_delay_category s d) ∧
    (∀ s, AviationStackClient.determine_delay_category s none =
      FlightDataParser.determine_delay_category s 0) := by
  refine ⟨?_, ?_, ?_, fun s d => rfl, fun s => rfl⟩
  · intro s d h
    simp [AviationStackClient.classify, AviationStackClient.determine_delay_category, h]
  · intro s d h
    simp [AviationStackClient.classify, AviationStackClient.determine_delay_category, h]
  · intro s d h1 h2
    simp only [AviationStackClient.classify, AviationStackClient.determine_delay_category,
      if_neg h1, if_neg h2]
    refine ⟨?_, ?_, ?_, ?_⟩
    · intro hle; rw [if_pos hle]
    · intro hlt hle; rw [if_neg (by omega), if_pos hle]
    · intro hlt hle; rw [if_neg (by omega), if_neg (by omega), if_pos hle]
    · intro hlt; rw [if_neg (by omega), if_neg (by omega), if_neg (by omega)]

/-- Claim C2 witness: the classification pipeline at concrete inputs,
through `classify_engine_spec`. -/
theorem classify_engine_spec_witness :
    AviationStackClient.classify "CANCELLED" (some 500) = DelayCategory.CANCELLED ∧
    AviationStackClient.classify "landed" (some 75) = DelayCategory.MAJOR_DELAY ∧
    AviationStackClient.classify "landed" none = DelayCategory.ON_TIME := by
  refine ⟨?_, ?_, ?_⟩
  · exact classify_engine_spec.1 "CANCELLED" (some 500) rfl
  · exact (classify_engine_spec.2.2.1 "landed" (some 75) (by decide)
      (by decide)).2.2.1 (by decide) (by decide)
  · exact (classify_engine_spec.2.2.1 "landed" none (by decide)
      (by decide)).1 (by decide)

/-- Claim C6 counterexample: a raw record in which all four required fields
are present (none is absent) but `flight_date` is the empty string still
fails strict validation, so failure is not equivalent to a field being
absent. -/
theorem strict_validation_empty_string_fails :
    rcEmptyDate.flight_date ≠ none ∧ rcEmptyDate.flight_icao ≠ none ∧
    rcEmptyDate.departure_icao ≠ none ∧ rcEmptyDate.arrival_icao ≠ none ∧
    FlightDataParser.parse_flight_data rcEmptyDate =
      .error "Missing required field: flight_date" :=
  ⟨by decide, by decide, by decide, by decide, rfl⟩

/-- Helper: `_parse_json_data` on a non-trivial body is the filter-map of
the per-record normalizer over the `data` list. -/
theorem parse_json_data_eq_filterMap (l : List RawFlight) :
    FlightDataParser.parse_json_data { data := some l } =
      l.filterMap (fun fd => okValue (FlightDataParser.parse_flight_data fd)) := by
  cases l with
  | nil => rfl
  | cons fd rest => rfl

/-- Claim C6, amended: strict validation fails exactly when one of
`flight_date`, `flight.icao`, `departure.icao`, `arrival.icao` is absent
or present with an empty-string value; a failing record is skipped, the
batch continues, and the returned records are the successes in input
order. -/
theorem strict_validation_amended :
    (∀ r, okValue (FlightDataParser.parse_flight_data r) = none ↔
      (blankField r.flight_date = true ∨ blankField r.flight_icao = true ∨
       blankField r.departure_icao = true ∨ blankField r.arrival_icao = true)) ∧
    (∀ pre r post, okValue (FlightDataParser.parse_flight_data r) = none →
      FlightDataParser.parse_json_data { data := some (pre ++ r :: post) } =
        FlightDataParser.parse_json_data { data := some (pre ++ post) }) ∧
    (∀ flights, FlightDataParser.parse_json_data { data := some flights } =
      flights.foldr (fun fd acc =>
        match okValue (FlightDataParser.parse_flight_data fd) with
        | some rec => rec :: acc
        | none => acc) []) := by
  refine ⟨?_, ?_, ?_⟩
  · intro r
    simp only [FlightDataParser.parse_flight_data, blankField]
    split_ifs with h1 h2 h3 h4 <;> simp_all [okValue]
  · intro pre r post h
    rw [parse_json_data_eq_filterMap, parse_json_data_eq_filterMap,
      List.filterMap_append, List.filterMap_append, List.filterMap_cons, h]
  · intro flights
    rw [parse_json_data_eq_filterMap]
    induction flights with
    | nil => rfl
    | cons fd rest ih =>
      rw [List.filterMap_cons, List.foldr_cons, ih]
      cases okValue (FlightDataParser.parse_flight_data fd) <;> rfl

/-- Claim C6 witness: a batch holding the empty-date record and a good
record parses to the same list as the batch without the bad record. -/
theorem strict_validation_amended_witness :
    FlightDataParser.parse_json_data { data := some [rcEmptyDate, rcLanded] } =
      FlightDataParser.parse_json_data { data := some [rcLanded] } :=
  strict_validation_amended.2.1 [] rcEmptyDate [rcLanded] rfl

/-- Claim C7: `parse_file` fails with `FileNotFoundError` when the path
does not exist, fails with `JsonDecodeError` when the content does not
decode, and returns the empty list (no error) when the decoded object has
no `data` key or an empty `data` list. -/
theorem parse_file_spec :
    (∀ fs decode path, fs path = none →
      FlightDataParser.parse_file fs decode path =
        .error FlightDataParser.ParseFileError.fileNotFound) ∧
    (∀ fs decode path content, fs path = some content → decode content = none →
      FlightDataParser.parse_file fs decode path =
        .error FlightDataParser.ParseFileError.jsonDecodeError) ∧
    (∀ fs decode path content data, fs path = some content →
      decode content = some data → (data.data = none ∨ data.data = some []) →
      FlightDataParser.parse_file fs decode path = .ok []) := by
  refine ⟨?_, ?_, ?_⟩
  · intro fs decode path h
    simp [FlightDataParser.parse_file, h]
  · intro fs decode path content h1 h2
    simp [FlightDataParser.parse_file, h1, h2]
  · intro fs decode path content data h1 h2 h3
    simp only [FlightDataParser.parse_file, h1, h2]
    rcases h3 with h | h <;> simp [FlightDataParser.parse_json_data, h]

/-- Claim C7 witness: the three outcomes at concrete environments, through
`parse_file_spec`. -/
theorem parse_file_spec_witness :
    FlightDataParser.parse_file (fun _ => none) (fun _ => none) "missing.json" =
      .error FlightDataParser.ParseFileError.fileNotFound ∧
    FlightDataParser.parse_file (fun _ => some "bad") (fun _ => none) "f.json" =
      .error FlightDataParser.ParseFileError.jsonDecodeError ∧
    FlightDataParser.parse_file (fun _ => some "ok")
        (fun _ => some { data := none }) "f.json" = .ok [] :=
  ⟨parse_file_spec.1 _ _ _ rfl,
   parse_file_spec.2.1 _ _ _ "bad" rfl rfl,
   parse_file_spec.2.2 _ _ _ "ok" { data := none } rfl rfl (Or.inl rfl)⟩

/-- Claim C10 counterexample: a raw record whose `flight_date` is a single
space (present, not the empty string) passes strict validation, and the
returned record's `flight_date` is the empty string, because date
normalization strips it after the emptiness check. -/
theorem file_record_empty_date_possible :
    rcSpaceDate.flight_date ≠ some "" ∧
    (okValue (FlightDataParser.parse_flight_data rcSpaceDate)).map
      FlightRecord.flight_date = some "" :=
  ⟨by decide, rfl⟩

/-- Claim C10, amended: a required field that is present but empty is
treated like an absent one (the record fails validation and is skipped),
and no record returned by the file path has an empty `flight_icao`,
`origin_icao` or `destination_icao`; `flight_date`, however, can end up
empty when the raw value is whitespace-only, since date normalization
strips it after the emptiness check. -/
theorem empty_required_field_amended :
    (∀ r, r.flight_date = some "" ∨ r.flight_icao = some "" ∨
        r.departure_icao = some "" ∨ r.arrival_icao = some "" →
      okValue (FlightDataParser.parse_flight_data r) = none) ∧
    (∀ r rec, FlightDataParser.parse_flight_data r = .ok rec →
      rec.flight_icao ≠ "" ∧ rec.origin_icao ≠ "" ∧ rec.destination_icao ≠ "") := by
  constructor
  · intro r h
    have hb : blankField r.flight_date = true ∨ blankField r.flight_icao = true ∨
        blankField r.departure_icao = true ∨ blankField r.arrival_icao = true := by
      rcases h with h | h | h | h <;>
        simp [blankField, h, show ("" : String).isEmpty = true from rfl]
    exact (strict_validation_amended.1 r).mpr hb
  · intro r rec h
    obtain ⟨e1, e2, e3, h1, h2, h3, -⟩ := parse_flight_data_ok_fields h
    refine ⟨?_, ?_, ?_⟩
    · rw [e1]; exact string_ne_empty_of_isEmpty_false h1
    · rw [e2]; exact string_ne_empty_of_isEmpty_false h2
    · rw [e3]; exact string_ne_empty_of_isEmpty_false h3

/-- Claim C10 witness: the empty-date record is rejected, and the good
record's identifiers are non-empty, through `empty_required_field_amended`. -/
theorem empty_required_field_amended_witness :
    okValue (FlightDataParser.parse_flight_data rcEmptyDate) = none ∧
    (recLanded.flight_icao ≠ "" ∧ recLanded.origin_icao ≠ "" ∧
      recLanded.destination_icao ≠ "") :=
  ⟨empty_required_field_amended.1 rcEmptyDate (Or.inl rfl),
   empty_required_field_amended.2 rcLanded recLanded rfl⟩

/-! Helper lemmas about the retry loop. -/

namespace AviationStackClient

/-- A uniform induction for environments in which every executed attempt
fails in a retryable way with the same terminal error: the loop runs all
remaining attempts, sleeping `2^attempt` after each non-final one, and
surfaces the error on the last. -/
theorem aux_uniform_fail {env : Nat → HttpAttempt} {m : Nat} {e : FetchError}
    (hstep : ∀ attempt fuel, attempt < m →
      get_flights_aux env m attempt (fuel + 1) =
        if attempt = m - 1 then (⟨1, []⟩, .error e)
        else afterSleep attempt (get_flights_aux env m (attempt + 1) fuel)) :
    ∀ fuel attempt, attempt + fuel = m → 1 ≤ fuel →
      get_flights_aux env m attempt fuel =
        (⟨fuel, (List.range' attempt (fuel - 1)).map (fun i => 2 ^ i)⟩, .error e) := by
  intro fuel
  induction fuel with
  | zero => intro attempt _ h; omega
  | succ f ih =>
    intro attempt hsum _
    rw [hstep attempt f (by omega)]
    by_cases hlast : attempt = m - 1
    · have hf : f = 0 := by omega
      subst hf
      rw [if_pos hlast]
      simp [List.range']
    · have hf : 1 ≤ f := by omega
      rw [if_neg hlast, ih (attempt + 1) (by omega) hf]
      obtain ⟨g, rfl⟩ : ∃ g, f = g + 1 := ⟨f - 1, by omega⟩
      simp [afterSleep, List.range']

/-- If the first `k` attempts raise connection errors and attempt `k`
returns a 2xx response with a valid body, the loop stops there with the
parsed result, having slept after each of the `k` failures. -/
theorem aux_connect_then_success {env : Nat → HttpAttempt} {m status : Nat}
    {data : RawResponse} (h2xx : 200 ≤ status) (h2xx' : status ≤ 299) :
    ∀ k attempt fuel, attempt + fuel = m → attempt + k < m →
      (∀ i, attempt ≤ i → i < attempt + k → env i = .connectError) →
      env (attempt + k) = .response status (some data) →
      get_flights_aux env m attempt fuel =
        (⟨k + 1, (List.range' attempt k).map (fun i => 2 ^ i)⟩,
          .ok (parse_response data)) := by
  intro k
  induction k with
  | zero =>
    intro attempt fuel hsum hlt hconn henv
    obtain ⟨f, rfl⟩ : ∃ f, fuel = f + 1 := ⟨fuel - 1, by omega⟩
    rw [Nat.add_zero] at henv
    simp only [get_flights_aux, henv]
    rw [if_neg (by omega : ¬(status = 429 ∧ attempt < m - 1)),
      if_neg (not_not_intro ⟨h2xx, h2xx'⟩)]
    simp [List.range']
  | succ k ih =>
    intro attempt fuel hsum hlt hconn henv
    obtain ⟨f, rfl⟩ : ∃ f, fuel = f + 1 := ⟨fuel - 1, by omega⟩
    simp only [get_flights_aux, hconn attempt le_rfl (by omega)]
    rw [if_neg (by omega : ¬attempt = m - 1),
      ih (attempt + 1) f (by omega) (by omega)
        (fun i hi1 hi2 => hconn i (by omega) (by omega))
        (by rw [show attempt + 1 + k = attempt + (k + 1) from by omega]; exact henv)]
    simp [afterSleep, List.range']

/-- Inside the loop (attempt budget matching the remaining fuel), the
result is never the trailing-guard error. -/
theorem aux_no_runtime {env : Nat → HttpAttempt} {m : Nat} :
    ∀ fuel attempt, attempt + fuel = m → 1 ≤ fuel →
      (get_flights_aux env m attempt fuel).2 ≠ .error FetchError.runtimeError := by
  intro fuel
  induction fuel with
  | zero => intro attempt _ h; omega
  | succ f ih =>
    intro attempt hsum _
    cases henv : env attempt with
    | connectError =>
      simp only [get_flights_aux, henv]
      split
      · simp
      · rename_i hne
        simpa [afterSleep] using ih (attempt + 1) (by omega) (by omega)
    | otherError =>
      simp only [get_flights_aux, henv]
      split
      · simp
      · rename_i hne
        simpa [afterSleep] using ih (attempt + 1) (by omega) (by omega)
    | response status body =>
      simp only [get_flights_aux, henv]
      split
      · rename_i hc
        simpa [afterSleep] using ih (attempt + 1) (by omega) (by omega)
      · split
        · split
          · simp
          · rename_i hne
            simpa [afterSleep] using ih (attempt + 1) (by omega) (by omega)
        · split
          · split
            · simp
            · rename_i hne
              simpa [afterSleep] using ih (attempt + 1) (by omega) (by omega)
          · simp

end AviationStackClient

/-! Claims about the retry loop. -/

/-- Claim C4: with every attempt failing at the connection level, the fetch
performs exactly `max_retries` attempts, sleeping 1s, 2s, 4s, … after each
non-final attempt, then propagates the connection error; and if the first
success (a 2xx response with a valid body) arrives at attempt `k` before
retries are exhausted, the fetch returns that attempt's parsed result. -/
theorem get_flights_retry_spec :
    (∀ env m, 1 ≤ m → (∀ i, i < m → env i = AviationStackClient.HttpAttempt.connectError) →
      AviationStackClient.get_flights env m =
        (⟨m, (List.range (m - 1)).map (fun i => 2 ^ i)⟩,
          .error AviationStackClient.FetchError.connectError)) ∧
    (∀ env m k status data, k < m →
      (∀ i, i < k → env i = AviationStackClient.HttpAttempt.connectError) →
      env k = AviationStackClient.HttpAttempt.response status (some data) →
      200 ≤ status → status ≤ 299 →
      AviationStackClient.get_flights env m =
        (⟨k + 1, (List.range k).map (fun i => 2 ^ i)⟩,
          .ok (AviationStackClient.parse_response data))) := by
  constructor
  · intro env m hm hconn
    unfold AviationStackClient.get_flights
    rw [AviationStackClient.aux_uniform_fail ?hstep m 0 (by omega) hm,
      List.range_eq_range']
    case hstep =>
      intro attempt fuel hlt
      simp only [AviationStackClient.get_flights_aux, hconn attempt hlt]
  · intro env m k status data hk hconn henv h2xx h2xx'
    unfold AviationStackClient.get_flights
    rw [AviationStackClient.aux_connect_then_success h2xx h2xx' k 0 m (by omega)
      (by omega) (fun i hi1 hi2 => hconn i (by omega)) (by simpa using henv),
      List.range_eq_range']

/-- Claim C4 witness: all-connect-failure with `max_retries = 3`, and two
connection failures followed by a success on the third attempt, through
`get_flights_retry_spec`. -/
theorem get_flights_retry_spec_witness :
    AviationStackClient.get_flights envAllConnectFail 3 =
      (⟨3, [1, 2]⟩, .error AviationStackClient.FetchError.connectError) ∧
    AviationStackClient.get_flights envTwoFailsThenOk 3 = (⟨3, [1, 2]⟩, .ok []) := by
  constructor
  · exact get_flights_retry_spec.1 envAllConnectFail 3 (by omega) (fun i _ => rfl)
  · exact get_flights_retry_spec.2 envTwoFailsThenOk 3 2 200 { data := some [] }
      (by omega) (fun i hi => if_pos hi) rfl (by omega) (by omega)

/-- Claim C5: an attempt that receives HTTP 429 sleeps `2^attempt` seconds
and retries when attempts remain; on the final attempt the 429 goes
through raise-for-status and is surfaced as an HTTP status error carrying
429. -/
theorem rate_limit_handling :
    ∀ env m attempt body, attempt < m →
      env attempt = AviationStackClient.HttpAttempt.response 429 body →
      ((attempt < m - 1 →
        AviationStackClient.get_flights_aux env m attempt (m - attempt) =
          AviationStackClient.afterSleep attempt
            (AviationStackClient.get_flights_aux env m (attempt + 1)
              (m - (attempt + 1)))) ∧
       (attempt = m - 1 →
        AviationStackClient.get_flights_aux env m attempt (m - attempt) =
          (⟨1, []⟩, .error (AviationStackClient.FetchError.httpStatusError 429)))) := by
  intro env m attempt body hlt henv
  obtain ⟨f, hf⟩ : ∃ f, m - attempt = f + 1 := ⟨m - attempt - 1, by omega⟩
  constructor
  · intro hrem
    rw [hf]
    simp only [AviationStackClient.get_flights_aux, henv]
    rw [if_pos ⟨trivial, hrem⟩, show f = m - (attempt + 1) from by omega]
  · intro hlast
    rw [hf]
    simp only [AviationStackClient.get_flights_aux, henv]
    rw [if_neg (by simp; omega : ¬(True ∧ attempt < m - 1)),
      if_pos (by decide : ¬(200 ≤ (429 : Nat) ∧ (429 : Nat) ≤ 299)), if_pos hlast]

/-- Claim C5 witness: with `max_retries = 2` and every attempt rate-limited,
attempt 0 sleeps 1s and retries, and attempt 1 (the final one) surfaces the
429 as an HTTP status error, through `rate_limit_handling`. -/
theorem rate_limit_handling_witness :
    AviationStackClient.get_flights_aux envAll429 2 0 2 =
      AviationStackClient.afterSleep 0 (AviationStackClient.get_flights_aux envAll429 2 1 1) ∧
    AviationStackClient.get_flights_aux envAll429 2 1 1 =
      (⟨1, []⟩, .error (AviationStackClient.FetchError.httpStatusError 429)) :=
  ⟨(rate_limit_handling envAll429 2 0 none (by omega) rfl).1 (by omega),
   (rate_limit_handling envAll429 2 1 none (by omega) rfl).2 rfl⟩

/-- Claim C8 counterexample: a 2xx response with an invalid JSON body on
attempt 0 does not surface as a terminal failure when a later attempt
succeeds — the fetch retries it like any other attempt failure and returns
the later attempt's parsed result. -/
theorem bad_json_retried_not_terminal :
    envBadJsonThenGood 0 = AviationStackClient.HttpAttempt.response 200 none ∧
    AviationStackClient.get_flights envBadJsonThenGood 2 = (⟨2, [1]⟩, .ok []) :=
  ⟨rfl, rfl⟩

/-- Claim C8, amended: a 2xx response whose body is not valid JSON is
retried with exponential backoff like any other attempt failure; it
surfaces to the caller as a terminal failure (the propagated decode
error) when it occurs on the final attempt — in particular whenever every
attempt yields such a response. -/
theorem bad_json_terminal_amended :
    (∀ env m status, 1 ≤ m → 200 ≤ status → status ≤ 299 →
      (∀ i, i < m → env i = AviationStackClient.HttpAttempt.response status none) →
      AviationStackClient.get_flights env m =
        (⟨m, (List.range (m - 1)).map (fun i => 2 ^ i)⟩,
          .error AviationStackClient.FetchError.jsonError)) ∧
    (∀ env m attempt status, attempt < m → attempt = m - 1 →
      200 ≤ status → status ≤ 299 →
      env attempt = AviationStackClient.HttpAttempt.response status none →
      AviationStackClient.get_flights_aux env m attempt (m - attempt) =
        (⟨1, []⟩, .error AviationStackClient.FetchError.jsonError)) := by
  constructor
  · intro env m status hm h2xx h2xx' henv
    unfold AviationStackClient.get_flights
    rw [AviationStackClient.aux_uniform_fail ?hstep m 0 (by omega) hm,
      List.range_eq_range']
    case hstep =>
      intro attempt fuel hlt
      simp only [AviationStackClient.get_flights_aux, henv attempt hlt]
      rw [if_neg (by omega : ¬(status = 429 ∧ attempt < m - 1)),
        if_neg (not_not_intro ⟨h2xx, h2xx'⟩)]
  · intro env m attempt status hlt hlast h2xx h2xx' henv
    obtain ⟨f, hf⟩ : ∃ f, m - attempt = f + 1 := ⟨m - attempt - 1, by omega⟩
    rw [hf]
    simp only [AviationStackClient.get_flights_aux, henv]
    rw [if_neg (by omega : ¬(status = 429 ∧ attempt < m - 1)),
      if_neg (not_not_intro ⟨h2xx, h2xx'⟩), if_pos hlast]

/-- Claim C8 witness: with every attempt returning a 2xx with an invalid
body and `max_retries = 2`, the fetch sleeps once and then propagates the
decode failure, through `bad_json_terminal_amended`. -/
theorem bad_json_terminal_amended_witness :
    AviationStackClient.get_flights
        (fun _ => AviationStackClient.HttpAttempt.response 200 none) 2 =
      (⟨2, [1]⟩, .error AviationStackClient.FetchError.jsonError) :=
  bad_json_terminal_amended.1 (fun _ => AviationStackClient.HttpAttempt.response 200 none)
    2 200 (by omega) (by omega) (by omega) (fun i _ => rfl)

/-- Claim C9 counterexample: the configuration type places no lower bound
on `max_retries`; with `max_retries = 0` the loop body never runs and the
trailing guard is reached, surfacing the fatal logic error. -/
theorem retry_loop_guard_reachable :
    AviationStackClient.get_flights envAllConnectFail 0 =
      (⟨0, []⟩, .error AviationStackClient.FetchError.runtimeError) := rfl

/-- Claim C9, amended: for every `max_retries ≥ 1` the retry loop never
completes without returning a result or raising a typed error, so the
trailing fatal-logic-error guard is unreachable; it is reachable exactly
in the degenerate configurations `max_retries ≤ 0`, where the loop body
never runs. -/
theorem retry_loop_guard_amended :
    ∀ env m, 1 ≤ m →
      (AviationStackClient.get_flights env m).2 ≠
        .error AviationStackClient.FetchError.runtimeError :=
  fun env m hm => AviationStackClient.aux_no_runtime m 0 (by omega) hm

/-- Claim C9 witness: with one configured attempt the guard error cannot be
the result, through `retry_loop_guard_amended`. -/
theorem retry_loop_guard_amended_witness :
    (AviationStackClient.get_flights envAllConnectFail 1).2 ≠
      .error AviationStackClient.FetchError.runtimeError :=
  retry_loop_guard_amended envAllConnectFail 1 (by omega)

/-! Helper lemmas for date normalization. -/

theorem pySplit_ne_nil (sep : Char) : ∀ cs, pySplit sep cs ≠ [] := by
  intro cs
  induction cs with
  | nil => simp [pySplit]
  | cons c rest ih =>
    simp only [pySplit]
    split
    · split <;> simp
    · simp

theorem pySplit_sepFree {sep : Char} :
    ∀ cs, (∀ c ∈ cs, c ≠ sep) → pySplit sep cs = [cs] := by
  intro cs
  induction cs with
  | nil => intro; rfl
  | cons c rest ih =>
    intro h
    unfold pySplit
    rw [ih (fun x hx => h x (List.mem_cons_of_mem _ hx))]
    simp [h c (List.mem_cons_self _ _)]

theorem pySplit_append {sep : Char} :
    ∀ a rest, (∀ c ∈ a, c ≠ sep) →
      pySplit sep (a ++ sep :: rest) = a :: pySplit sep rest := by
  intro a
  induction a with
  | nil =>
    intro rest _
    obtain ⟨h0, t0, hr⟩ := List.exists_cons_of_ne_nil (pySplit_ne_nil sep rest)
    simp only [List.nil_append]
    conv_lhs => rw [pySplit]
    rw [hr]
    simp
  | cons c a ih =>
    intro rest h
    simp only [List.cons_append]
    conv_lhs => rw [pySplit]
    rw [ih rest (fun x hx => h x (List.mem_cons_of_mem _ hx))]
    simp [h c (List.mem_cons_self _ _)]

theorem digit_not_ws : ∀ c ∈ digitChars, c.isWhitespace = false := by decide

theorem digit_ne_slash : ∀ c ∈ digitChars, c ≠ '/' := by decide

theorem digit_ne_dash : ∀ c ∈ digitChars, c ≠ '-' := by decide

theorem slash_not_digit : '/' ∉ digitChars := by decide

theorem mem_three_parts {a b c3 : List Char} {sep x : Char}
    (h : x ∈ a ++ sep :: (b ++ sep :: c3)) : x ∈ a ∨ x = sep ∨ x ∈ b ∨ x ∈ c3 := by
  rcases List.mem_append.mp h with h | h
  · exact Or.inl h
  · rcases List.mem_cons.mp h with h | h
    · exact Or.inr (Or.inl h)
    · rcases List.mem_append.mp h with h | h
      · exact Or.inr (Or.inr (Or.inl h))
      · rcases List.mem_cons.mp h with h | h
        · exact Or.inr (Or.inl h)
        · exact Or.inr (Or.inr (Or.inr h))

theorem three_parts_not_ws {a b c3 : List Char} {sep : Char}
    (hsep : sep.isWhitespace = false) (ha : IsDigits a) (hb : IsDigits b)
    (hc : IsDigits c3) :
    ∀ x ∈ a ++ sep :: (b ++ sep :: c3), x.isWhitespace = false := by
  intro x hx
  rcases mem_three_parts hx with h | rfl | h | h
  · exact digit_not_ws _ (ha _ h)
  · exact hsep
  · exact digit_not_ws _ (hb _ h)
  · exact digit_not_ws _ (hc _ h)

theorem three_parts_split {a b c3 : List Char} {sep : Char}
    (ha : ∀ c ∈ a, c ≠ sep) (hb : ∀ c ∈ b, c ≠ sep) (hc : ∀ c ∈ c3, c ≠ sep) :
    pySplit sep (a ++ sep :: (b ++ sep :: c3)) = [a, b, c3] := by
  rw [pySplit_append a _ ha, pySplit_append b _ hb, pySplit_sepFree c3 hc]

/-- Pass-through of `YYYY-MM-DD` shaped inputs (all-digit components). -/
theorem normalize_date_iso (y1 y2 y3 y4 m1 m2 d1 d2 : Char)
    (h1 : y1 ∈ digitChars) (h2 : y2 ∈ digitChars) (h3 : y3 ∈ digitChars)
    (h4 : y4 ∈ digitChars) (h5 : m1 ∈ digitChars) (h6 : m2 ∈ digitChars)
    (h7 : d1 ∈ digitChars) (h8 : d2 ∈ digitChars) :
    FlightDataParser.normalize_date_chars [y1, y2, y3, y4, '-', m1, m2, '-', d1, d2] =
      [y1, y2, y3, y4, '-', m1, m2, '-', d1, d2] := by
  have hws : ∀ c ∈ [y1, y2, y3, y4, '-', m1, m2, '-', d1, d2],
      c.isWhitespace = false := by
    intro c hc
    simp only [List.mem_cons, List.not_mem_nil, or_false] at hc
    rcases hc with rfl | rfl | rfl | rfl | rfl | rfl | rfl | rfl | rfl | rfl
    exacts [digit_not_ws _ h1, digit_not_ws _ h2, digit_not_ws _ h3,
      digit_not_ws _ h4, by decide, digit_not_ws _ h5, digit_not_ws _ h6,
      by decide, digit_not_ws _ h7, digit_not_ws _ h8]
  simp only [FlightDataParser.normalize_date_chars]
  rw [pyStrip_eq_self hws,
    if_pos (show FlightDataParser.iso_shape_check
      [y1, y2, y3, y4, '-', m1, m2, '-', d1, d2] = true from rfl)]

/-- Conversion of `YYYY/MM/DD` (4-digit year, 1-2 digit month and day). -/
theorem normalize_date_ymd_slash (y m d : List Char)
    (hy : IsDigits y) (hm : IsDigits m) (hd : IsDigits d)
    (hylen : y.length = 4) (hm1 : 1 ≤ m.length) (hm2 : m.length ≤ 2)
    (hd1 : 1 ≤ d.length) (hd2 : d.length ≤ 2) :
    FlightDataParser.normalize_date_chars (y ++ '/' :: (m ++ '/' :: d)) =
      y ++ '-' :: zfillChars 2 m ++ '-' :: zfillChars 2 d := by
  have hws := @three_parts_not_ws y m d '/' (by decide) hy hm hd
  have h4 : (y ++ '/' :: (m ++ '/' :: d))[4]? = some '/' := by
    rw [List.getElem?_append_right (by omega), hylen]
    simp
  have hiso : FlightDataParser.iso_shape_check (y ++ '/' :: (m ++ '/' :: d)) = false := by
    simp [FlightDataParser.iso_shape_check, h4]
  have hsplit := three_parts_split (fun c hc => digit_ne_slash _ (hy _ hc))
    (fun c hc => digit_ne_slash _ (hm _ hc)) (fun c hc => digit_ne_slash _ (hd _ hc))
  have hslash : FlightDataParser.slash_branch (y ++ '/' :: (m ++ '/' :: d)) =
      some (y ++ '-' :: zfillChars 2 m ++ '-' :: zfillChars 2 d) := by
    simp only [FlightDataParser.slash_branch]
    rw [if_pos (by simp : '/' ∈ y ++ '/' :: (m ++ '/' :: d))]
    simp only [hsplit]
    rw [if_pos hylen]
  simp only [FlightDataParser.normalize_date_chars]
  rw [pyStrip_eq_self hws, if_neg (by simp [hiso]), hslash]

/-- The `YYYY-MM-DD` structural check fails on any three-part month-first
shape `MM sep DD sep YYYY` built from digit components of the usual
lengths, for any separator that is not a digit position conflict: when the
total length is 10 the character at index 4 is a digit, not a dash. -/
theorem iso_check_false_mdy {m d y : List Char} {sep : Char}
    (hm : IsDigits m) (hd : IsDigits d)
    (hylen : y.length = 4) (hm1 : 1 ≤ m.length) (hm2 : m.length ≤ 2)
    (hd1 : 1 ≤ d.length) (hd2 : d.length ≤ 2) :
    FlightDataParser.iso_shape_check (m ++ sep :: (d ++ sep :: y)) = false := by
  by_cases h22 : m.length = 2 ∧ d.length = 2
  · obtain ⟨a, b, rfl⟩ := List.length_eq_two.mp h22.1
    obtain ⟨c, e, rfl⟩ := List.length_eq_two.mp h22.2
    have h4 : ([a, b] ++ sep :: ([c, e] ++ sep :: y))[4]? = some e := rfl
    have hne : ¬(e = '-') := digit_ne_dash _ (hd _ (by simp))
    simp [FlightDataParser.iso_shape_check, h4, hne]
  · simp only [FlightDataParser.iso_shape_check, hylen]
    simp
    intro hlen
    exact absurd hlen (by omega)

/-- Conversion of `MM/DD/YYYY` (1-2 digit month and day, 4-digit year). -/
theorem normalize_date_mdy_slash (m d y : List Char)
    (hm : IsDigits m) (hd : IsDigits d) (hy : IsDigits y)
    (hylen : y.length = 4) (hm1 : 1 ≤ m.length) (hm2 : m.length ≤ 2)
    (hd1 : 1 ≤ d.length) (hd2 : d.length ≤ 2) :
    FlightDataParser.normalize_date_chars (m ++ '/' :: (d ++ '/' :: y)) =
      y ++ '-' :: zfillChars 2 m ++ '-' :: zfillChars 2 d := by
  have hws := @three_parts_not_ws m d y '/' (by decide) hm hd hy
  have hiso := @iso_check_false_mdy m d y '/' hm hd hylen hm1 hm2 hd1 hd2
  have hsplit := three_parts_split (fun c hc => digit_ne_slash _ (hm _ hc))
    (fun c hc => digit_ne_slash _ (hd _ hc)) (fun c hc => digit_ne_slash _ (hy _ hc))
  have hslash : FlightDataParser.slash_branch (m ++ '/' :: (d ++ '/' :: y)) =
      some (y ++ '-' :: zfillChars 2 m ++ '-' :: zfillChars 2 d) := by
    simp only [FlightDataParser.slash_branch]
    rw [if_pos (by simp : '/' ∈ m ++ '/' :: (d ++ '/' :: y))]
    simp only [hsplit]
    rw [if_neg (by omega : ¬m.length = 4), if_pos hylen]
  simp only [FlightDataParser.normalize_date_chars]
  rw [pyStrip_eq_self hws, if_neg (by simp [hiso]), hslash]

/-- Conversion of `MM-DD-YYYY` (1-2 digit month and day, 4-digit year),
resolved month-first. -/
theorem normalize_date_mdy_dash (m d y : List Char)
    (hm : IsDigits m) (hd : IsDigits d) (hy : IsDigits y)
    (hylen : y.length = 4) (hm1 : 1 ≤ m.length) (hm2 : m.length ≤ 2)
    (hd1 : 1 ≤ d.length) (hd2 : d.length ≤ 2) :
    FlightDataParser.normalize_date_chars (m ++ '-' :: (d ++ '-' :: y)) =
      y ++ '-' :: zfillChars 2 m ++ '-' :: zfillChars 2 d := by
  have hws := @three_parts_not_ws m d y '-' (by decide) hm hd hy
  have hiso := @iso_check_false_mdy m d y '-' hm hd hylen hm1 hm2 hd1 hd2
  have hnoslash : '/' ∉ m ++ '-' :: (d ++ '-' :: y) := by
    intro hmem
    rcases mem_three_parts hmem with h | h | h | h
    · exact slash_not_digit (hm _ h)
    · exact absurd h (by decide)
    · exact slash_not_digit (hd _ h)
    · exact slash_not_digit (hy _ h)
  have hslash0 : FlightDataParser.slash_branch (m ++ '-' :: (d ++ '-' :: y)) = none := by
    simp only [FlightDataParser.slash_branch]
    rw [if_neg hnoslash]
  have hsplit := three_parts_split (fun c hc => digit_ne_dash _ (hm _ hc))
    (fun c hc => digit_ne_dash _ (hd _ hc)) (fun c hc => digit_ne_dash _ (hy _ hc))
  have hdash : FlightDataParser.dash_branch (m ++ '-' :: (d ++ '-' :: y)) =
      some (y ++ '-' :: zfillChars 2 m ++ '-' :: zfillChars 2 d) := by
    simp only [FlightDataParser.dash_branch]
    rw [if_pos (by simp : '-' ∈ m ++ '-' :: (d ++ '-' :: y))]
    simp only [hsplit]
    rw [if_pos hylen]
  simp only [FlightDataParser.normalize_date_chars]
  rw [pyStrip_eq_self hws, if_neg (by simp [hiso]), hslash0, hdash]

/-- When no branch of the normalizer recognizes the stripped input, it is
returned as stripped. -/
theorem normalize_date_unrecognized (cs : List Char)
    (h1 : FlightDataParser.iso_shape_check (pyStrip cs) = false)
    (h2 : FlightDataParser.slash_branch (pyStrip cs) = none)
    (h3 : FlightDataParser.dash_branch (pyStrip cs) = none) :
    FlightDataParser.normalize_date_chars cs = pyStrip cs := by
  simp only [FlightDataParser.normalize_date_chars]
  rw [if_neg (by simp [h1]), h2, h3]

/-- Claim C3 counterexample: an unrecognized input with surrounding
whitespace does not pass through unchanged — the normalizer strips it
first. -/
theorem unrecognized_date_not_unchanged :
    FlightDataParser.normalize_date_format " x" = "x" ∧ (" x" : String) ≠ "x" :=
  ⟨rfl, by decide⟩

/-- Claim C3, amended: after stripping surrounding whitespace, the
normalizer maps all-digit `YYYY-MM-DD` to itself, `YYYY/MM/DD`,
`MM/DD/YYYY` and month-first `MM-DD-YYYY` (months and days of one or two
digits) to zero-padded `YYYY-MM-DD`, and returns every unrecognized input
with only its surrounding whitespace removed, raising no error. -/
theorem normalize_date_spec_amended :
    (∀ y1 y2 y3 y4 m1 m2 d1 d2 : Char, y1 ∈ digitChars → y2 ∈ digitChars →
      y3 ∈ digitChars → y4 ∈ digitChars → m1 ∈ digitChars → m2 ∈ digitChars →
      d1 ∈ digitChars → d2 ∈ digitChars →
      FlightDataParser.normalize_date_chars
          [y1, y2, y3, y4, '-', m1, m2, '-', d1, d2] =
        [y1, y2, y3, y4, '-', m1, m2, '-', d1, d2]) ∧
    (∀ y m d : List Char, IsDigits y → IsDigits m → IsDigits d →
      y.length = 4 → 1 ≤ m.length → m.length ≤ 2 → 1 ≤ d.length → d.length ≤ 2 →
      FlightDataParser.normalize_date_chars (y ++ '/' :: (m ++ '/' :: d)) =
        y ++ '-' :: zfillChars 2 m ++ '-' :: zfillChars 2 d) ∧
    (∀ m d y : List Char, IsDigits m → IsDigits d → IsDigits y →
      y.length = 4 → 1 ≤ m.length → m.length ≤ 2 → 1 ≤ d.length → d.length ≤ 2 →
      FlightDataParser.normalize_date_chars (m ++ '/' :: (d ++ '/' :: y)) =
        y ++ '-' :: zfillChars 2 m ++ '-' :: zfillChars 2 d) ∧
    (∀ m d y : List Char, IsDigits m → IsDigits d → IsDigits y →
      y.length = 4 → 1 ≤ m.length → m.length ≤ 2 → 1 ≤ d.length → d.length ≤ 2 →
      FlightDataParser.normalize_date_chars (m ++ '-' :: (d ++ '-' :: y)) =
        y ++ '-' :: zfillChars 2 m ++ '-' :: zfillChars 2 d) ∧
    (∀ cs : List Char, FlightDataParser.iso_shape_check (pyStrip cs) = false →
      FlightDataParser.slash_branch (pyStrip cs) = none →
      FlightDataParser.dash_branch (pyStrip cs) = none →
      FlightDataParser.normalize_date_chars cs = pyStrip cs) :=
  ⟨normalize_date_iso, normalize_date_ymd_slash, normalize_date_mdy_slash,
   normalize_date_mdy_dash, normalize_date_unrecognized⟩

/-- Claim C3 witness: the four date shapes and an unrecognized input at
concrete values, through `normalize_date_spec_amended`. -/
theorem normalize_date_spec_amended_witness :
    FlightDataParser.normalize_date_chars
        ['2', '0', '2', '4', '-', '0', '1', '-', '0', '1'] =
      ['2', '0', '2', '4', '-', '0', '1', '-', '0', '1'] ∧
    FlightDataParser.normalize_date_chars
        ['2', '0', '2', '4', '/', '1', '/', '2'] =
      ['2', '0', '2', '4', '-', '0', '1', '-', '0', '2'] ∧
    FlightDataParser.normalize_date_chars
        ['0', '1', '/', '0', '3', '/', '2', '0', '2', '4'] =
      ['2', '0', '2', '4', '-', '0', '1', '-', '0', '3'] ∧
    FlightDataParser.normalize_date_chars
        ['1', '-', '3', '-', '2', '0', '2', '4'] =
      ['2', '0', '2', '4', '-', '0', '1', '-', '0', '3'] ∧
    FlightDataParser.normalize_date_chars ['g', 'a', 'r', 'b', 'a', 'g', 'e'] =
      pyStrip ['g', 'a', 'r', 'b', 'a', 'g', 'e'] := by
  refine ⟨?_, ?_, ?_, ?_, ?_⟩
  · exact normalize_date_spec_amended.1 '2' '0' '2' '4' '0' '1' '0' '1'
      (by decide) (by decide) (by decide) (by decide) (by decide) (by decide)
      (by decide) (by decide)
  · exact normalize_date_spec_amended.2.1 ['2', '0', '2', '4'] ['1'] ['2']
      (by decide) (by decide) (by decide) (by decide) (by decide) (by decide)
      (by decide) (by decide)
  · exact normalize_date_spec_amended.2.2.1 ['0', '1'] ['0', '3'] ['2', '0', '2', '4']
      (by decide) (by decide) (by decide) (by decide) (by decide) (by decide)
      (by decide) (by decide)
  · exact normalize_date_spec_amended.2.2.2.1 ['1'] ['3'] ['2', '0', '2', '4']
      (by decide) (by decide) (by decide) (by decide) (by decide) (by decide)
      (by decide) (by decide)
  · exact normalize_date_spec_amended.2.2.2.2 ['g', 'a', 'r', 'b', 'a', 'g', 'e']
      (by decide) (by decide) (by decide)
